import Mathlib

set_option autoImplicit false

/-!
Shallow embedding of the chat push-notification relay.

The repository contains two variants of the same Express server:
* `src/server.js` — embedded below under namespace `V1`;
* `src/unnamed/part_000` — embedded below under namespace `V2`.

HTTP responses are modelled as a status code plus a JSON object body
(a list of key/value pairs, in the order the source writes them).
The Firestore profile store is an external collaborator; it is modelled as
an association list of documents with the field-merge semantics of
`set(..., { merge: true })` described in the spec (fields named in the
write are replaced wholesale, all other fields of the document are kept,
and a write to a missing document creates it).  The push sender
(`admin.messaging().send`) is modelled by a `SendOutcome` parameter: the
promise either resolves with a message id or rejects with an error
carrying an optional `code` and a `message`.

JavaScript string lengths and `substring` are modelled at character
granularity (JS counts UTF-16 code units, which agrees with characters on
all non-astral text, including every literal in this code base).
-/

namespace ChatNotify

/-- JSON values appearing in this server's response bodies: strings, booleans,
arrays of strings, and flat string-to-string objects. -/
inductive JVal where
  | jstr (s : String)
  | jbool (b : Bool)
  | jarr (xs : List String)
  | jobjS (fields : List (String × String))
  deriving DecidableEq

/-- A JSON object body: key/value pairs in source order. -/
abbrev Body := List (String × JVal)

/-- Value of a key in a response body, if present. -/
def Body.getVal : Body → String → Option JVal
  | [], _ => none
  | (k, v) :: rest, key => if k = key then some v else Body.getVal rest key

/-- An HTTP response: `res.status(n).json(body)`; `res.json(body)` is status 200. -/
structure Response where
  status : Nat
  body : Body
  deriving DecidableEq

/-- JS truthiness of an optional string: `undefined` and the empty string are
falsy, every other string is truthy. -/
def truthy : Option String → Bool
  | none => false
  | some s => s != ""

/-- JS `x || d` for an optional string `x`: the default is taken when `x` is
absent or empty (falsy). -/
def jsOr : Option String → String → String
  | none, d => d
  | some s, d => if s = "" then d else s

/-- JS `s.substring(0, n)`: the first `n` characters of `s` (all of `s` when
it is shorter). -/
def jsSubstring (s : String) (n : Nat) : String := ⟨s.data.take n⟩

/-- A Firestore field value as used by this server: strings, booleans, and
server timestamps. -/
inductive FVal where
  | fstr (s : String)
  | fbool (b : Bool)
  | ftime (t : Nat)
  deriving DecidableEq

/-- A Firestore document: an association list from field names to values
(no duplicate keys arise from the operations below; lookup takes the first
binding). -/
abbrev Doc := List (String × FVal)

/-- Field lookup in a document. -/
def Doc.get : Doc → String → Option FVal
  | [], _ => none
  | (k, v) :: rest, key => if k = key then some v else Doc.get rest key

/-- Read a field expected to be a string (e.g. `userData.fcmToken`);
absent or differently-typed fields read as `undefined`, i.e. `none`. -/
def Doc.getStr (d : Doc) (key : String) : Option String :=
  match d.get key with
  | some (.fstr s) => some s
  | _ => none

/-- Read a field expected to be a boolean (e.g. `userData.isOnline`). -/
def Doc.getBool (d : Doc) (key : String) : Option Bool :=
  match d.get key with
  | some (.fbool b) => some b
  | _ => none

/-- Replace the binding of one field, or append it if absent. -/
def Doc.setField : Doc → String → FVal → Doc
  | [], key, v => [(key, v)]
  | (k, w) :: rest, key, v =>
      if k = key then (key, v) :: rest else (k, w) :: Doc.setField rest key v

/-- Merge a list of field writes into a document, left to right
(Firestore `set` with `merge: true`, per the spec's merge semantics). -/
def Doc.setMerge (d : Doc) (fields : List (String × FVal)) : Doc :=
  fields.foldl (fun acc kv => acc.setField kv.1 kv.2) d

/-- The profile store (`db.collection('users')`): documents keyed by user id. -/
abbrev Store := List (String × Doc)

/-- Document lookup: `db.collection('users').doc(uid).get()`. -/
def Store.get : Store → String → Option Doc
  | [], _ => none
  | (k, d) :: rest, uid => if k = uid then some d else Store.get rest uid

/-- Replace a document wholesale, or append it if absent. -/
def Store.set : Store → String → Doc → Store
  | [], uid, d => [(uid, d)]
  | (k, e) :: rest, uid, d =>
      if k = uid then (uid, d) :: rest else (k, e) :: Store.set rest uid d

/-- The server's only write: `doc(uid).set(fields, { merge: true })`.
A missing document is created holding exactly the written fields. -/
def Store.setMerge (s : Store) (uid : String) (fields : List (String × FVal)) : Store :=
  s.set uid (Doc.setMerge ((s.get uid).getD []) fields)

/-- The parsed JSON body of a POST request; every field is optional
(`req.body` destructuring yields `undefined` for absent properties). -/
structure SendReq where
  receiverId : Option String
  senderId : Option String
  senderName : Option String
  message : Option String
  chatId : Option String
  messageType : Option String
  deriving DecidableEq

/-- Outcome of the `admin.messaging().send(fcmMessage)` promise: a message id,
or a rejection with an optional error code and an error message. -/
inductive SendOutcome where
  | ok (messageId : String)
  | fail (code : Option String) (msg : String)
  deriving DecidableEq

/-- The FCM message handed to the push sender (the static `android`/`apns`
configuration blocks carry no request data and are omitted). -/
structure FcmMessage where
  title : String
  body : String
  chatId : String
  senderId : String
  senderName : String
  messageType : String
  token : String
  deriving DecidableEq

/-- Result of the send-notification handler: the HTTP response, and the FCM
message given to the push sender if the sender was invoked. -/
structure SendResult where
  resp : Response
  sent : Option FcmMessage
  deriving DecidableEq

/-- Result of the fcm-token handler: the HTTP response, the store afterwards,
and whether a store write occurred. -/
structure TokenResult where
  resp : Response
  store : Store
  wrote : Bool
  deriving DecidableEq

/-- HTTP methods used by the API. -/
inductive Method where
  | GET
  | POST
  deriving DecidableEq

/-- Display name of a method (for the V2 404 body's `method` field). -/
def Method.name : Method → String
  | .GET => "GET"
  | .POST => "POST"

/-- Split a character list at every slash (the behaviour of
`splitOn "/"` on the character data, written structurally so it computes). -/
def splitSlashAux : List Char → List Char → List (List Char)
  | [], acc => [acc.reverse]
  | c :: rest, acc =>
      if c = '/' then acc.reverse :: splitSlashAux rest []
      else splitSlashAux rest (c :: acc)

/-- The slash-separated segments of a path, as `p.splitOn "/"` yields them. -/
def pathSegs (p : String) : List String :=
  (splitSlashAux p.data []).map String.mk

/-- Express route match for `/user/:userId/fcm-token`: the path must consist
of the three segments `user`, a non-empty user id, and `fcm-token`. -/
def matchTokenPath (p : String) : Option String :=
  match pathSegs p with
  | ["", "user", uid, "fcm-token"] => if uid = "" then none else some uid
  | _ => none

/-- A request as seen by the router: the union of all body fields used by the
two POST endpoints. -/
structure ReqBody where
  receiverId : Option String
  senderId : Option String
  senderName : Option String
  message : Option String
  chatId : Option String
  messageType : Option String
  fcmToken : Option String
  deviceType : Option String
  deriving DecidableEq

/-- Projection of a request body onto the send-notification fields. -/
def ReqBody.toSendReq (b : ReqBody) : SendReq :=
  { receiverId := b.receiverId, senderId := b.senderId, senderName := b.senderName,
    message := b.message, chatId := b.chatId, messageType := b.messageType }

/-- Result of routing one request: the response, any FCM message sent, and the
store afterwards. -/
structure DispatchResult where
  resp : Response
  sent : Option FcmMessage
  store : Store
  deriving DecidableEq

/-- Reference definition of the Notification Formatter, following the spec's
words (§4.3 and claim C4): the five media types map to fixed icon+label
strings independent of the message; any other type maps to the message
itself, truncated to 100 characters with a trailing ellipsis marker when
longer; an empty (or absent) message maps to the generic "New message". -/
def formatSpec (message : String) (messageType : String) : String :=
  if messageType = "image" then "📷 Sent an image"
  else if messageType = "video" then "🎥 Sent a video"
  else if messageType = "audio" then "🎵 Sent an audio message"
  else if messageType = "document" then "📄 Sent a document"
  else if messageType = "location" then "📍 Shared location"
  else if message = "" then "New message"
  else if message.length > 100 then jsSubstring message 100 ++ "..."
  else message

namespace V1

/-- Formatter of `src/server.js` (`getNotificationBody`): the default branch is
`message.length > 100 ? message.substring(0, 100) + '...' : message`, with no
fallback for an empty message. -/
def getNotificationBody (message : String) (messageType : String) : String :=
  if messageType = "image" then "📷 Sent an image"
  else if messageType = "video" then "🎥 Sent a video"
  else if messageType = "audio" then "🎵 Sent an audio message"
  else if messageType = "document" then "📄 Sent a document"
  else if messageType = "location" then "📍 Shared location"
  else if message.length > 100 then jsSubstring message 100 ++ "..."
  else message

/-- POST /send-notification handler of `src/server.js`.  `firebaseEnabled`
models `admin.apps.length > 0`; `outcome` models the result of the
`admin.messaging().send` call (only reached when the sender is invoked). -/
def handleSendNotification (firebaseEnabled : Bool) (store : Store)
    (outcome : SendOutcome) (req : SendReq) : SendResult :=
  let messageType := req.messageType.getD "text"
  if !truthy req.receiverId || !truthy req.senderId || !truthy req.senderName
      || !truthy req.message || !truthy req.chatId then
    { resp := { status := 400,
                body := [("error", .jstr "Missing required fields: receiverId, senderId, senderName, message, chatId")] },
      sent := none }
  else
    let receiverId := req.receiverId.getD ""
    let senderId := req.senderId.getD ""
    let senderName := req.senderName.getD ""
    let message := req.message.getD ""
    let chatId := req.chatId.getD ""
    if !firebaseEnabled then
      { resp := { status := 200,
                  body := [("success", .jbool true),
                           ("message", .jstr "Notification logged (Firebase disabled)"),
                           ("firebase", .jbool false)] },
        sent := none }
    else
      match Store.get store receiverId with
      | none =>
          { resp := { status := 404, body := [("error", .jstr "Receiver not found")] },
            sent := none }
      | some userData =>
          let fcmToken := userData.getStr "fcmToken"
          if !truthy fcmToken then
            { resp := { status := 400,
                        body := [("error", .jstr "No FCM token found for receiver")] },
              sent := none }
          else
            let isOnline := (userData.getBool "isOnline").getD false
            if isOnline && (userData.getStr "activeChatId" == some chatId) then
              { resp := { status := 200,
                          body := [("success", .jbool true),
                                   ("message", .jstr "User is viewing this chat, notification skipped"),
                                   ("skipped", .jbool true)] },
                sent := none }
            else
              let notificationBody := getNotificationBody message messageType
              let fcmMessage : FcmMessage :=
                { title := senderName, body := notificationBody, chatId := chatId,
                  senderId := senderId, senderName := senderName,
                  messageType := messageType, token := fcmToken.getD "" }
              match outcome with
              | .ok messageId =>
                  { resp := { status := 200,
                              body := [("success", .jbool true),
                                       ("messageId", .jstr messageId),
                                       ("receiverId", .jstr receiverId),
                                       ("senderName", .jstr senderName),
                                       ("firebase", .jbool true)] },
                    sent := some fcmMessage }
              | .fail code msg =>
                  if code == some "messaging/registration-token-not-registered" then
                    { resp := { status := 400,
                                body := [("error", .jstr "Invalid FCM token"),
                                         ("code", .jstr "TOKEN_INVALID")] },
                      sent := some fcmMessage }
                  else
                    { resp := { status := 500,
                                body := [("error", .jstr "Failed to send notification"),
                                         ("details", .jstr msg)] },
                      sent := some fcmMessage }

/-- POST /user/:userId/fcm-token handler of `src/server.js`.  `now` models the
server timestamp assigned to both timestamp fields of the write. -/
def handleFcmTokenUpdate (firebaseEnabled : Bool) (store : Store) (now : Nat)
    (userId : String) (fcmToken : Option String) (deviceType : Option String) : TokenResult :=
  if !truthy fcmToken then
    { resp := { status := 400, body := [("error", .jstr "fcmToken is required")] },
      store := store, wrote := false }
  else if !firebaseEnabled then
    { resp := { status := 200,
                body := [("success", .jbool true),
                         ("message", .jstr "FCM token received (Firebase disabled)"),
                         ("firebase", .jbool false)] },
      store := store, wrote := false }
  else
    let newStore := Store.setMerge store userId
      [("fcmToken", .fstr (fcmToken.getD "")),
       ("deviceType", .fstr (jsOr deviceType "unknown")),
       ("lastTokenUpdate", .ftime now),
       ("isOnline", .fbool true),
       ("lastActive", .ftime now)]
    { resp := { status := 200,
                body := [("success", .jbool true),
                         ("message", .jstr "FCM token updated successfully"),
                         ("userId", .jstr userId),
                         ("firebase", .jbool true)] },
      store := newStore, wrote := true }

/-- GET /health response of `src/server.js`. -/
def healthResponse (firebaseEnabled : Bool) (nowIso : String) : Response :=
  { status := 200,
    body := [("status", .jstr "OK"),
             ("message", .jstr "Chat Notification API is running with Firebase"),
             ("timestamp", .jstr nowIso),
             ("firebase", .jstr (if firebaseEnabled then "enabled" else "disabled"))] }

/-- Routes defined by `src/server.js`: GET /health, POST /send-notification,
POST /user/:userId/fcm-token (there is no GET / route in this variant). -/
def isKnownRoute (m : Method) (p : String) : Bool :=
  (m == .GET && p == "/health")
    || (m == .POST && p == "/send-notification")
    || (m == .POST && (matchTokenPath p).isSome)

/-- Router of `src/server.js`: the three routes above, then the catch-all
404 handler `res.status(404).json({ error: 'Endpoint not found' })`. -/
def dispatch (firebaseEnabled : Bool) (store : Store) (outcome : SendOutcome)
    (now : Nat) (nowIso : String) (m : Method) (p : String) (body : ReqBody) : DispatchResult :=
  if m == .GET && p == "/health" then
    { resp := healthResponse firebaseEnabled nowIso, sent := none, store := store }
  else if m == .POST && p == "/send-notification" then
    let r := handleSendNotification firebaseEnabled store outcome body.toSendReq
    { resp := r.resp, sent := r.sent, store := store }
  else
    match (if m == .POST then matchTokenPath p else none) with
    | some uid =>
        let r := handleFcmTokenUpdate firebaseEnabled store now uid body.fcmToken body.deviceType
        { resp := r.resp, sent := none, store := r.store }
    | none =>
        { resp := { status := 404, body := [("error", .jstr "Endpoint not found")] },
          sent := none, store := store }

end V1

namespace V2

/-- Formatter of `src/unnamed/part_000` (`getNotificationBody`): the default
branch is `message && message.length > 100 ? message.substring(0, 100) + '...'
: message || 'New message'`. -/
def getNotificationBody (message : String) (messageType : String) : String :=
  if messageType = "image" then "📷 Sent an image"
  else if messageType = "video" then "🎥 Sent a video"
  else if messageType = "audio" then "🎵 Sent an audio message"
  else if messageType = "document" then "📄 Sent a document"
  else if messageType = "location" then "📍 Shared location"
  else if message ≠ "" ∧ message.length > 100 then jsSubstring message 100 ++ "..."
  else if message ≠ "" then message
  else "New message"

/-- POST /send-notification handler of `src/unnamed/part_000`.
`firebaseEnabled` models the `firebaseEnabled` flag; `outcome` models the
result of the `admin.messaging().send` call. -/
def handleSendNotification (firebaseEnabled : Bool) (store : Store)
    (outcome : SendOutcome) (req : SendReq) : SendResult :=
  let messageType := req.messageType.getD "text"
  if !truthy req.receiverId || !truthy req.senderId || !truthy req.senderName
      || !truthy req.message || !truthy req.chatId then
    { resp := { status := 400,
                body := [("error", .jstr "Missing required fields"),
                         ("required", .jarr ["receiverId", "senderId", "senderName", "message", "chatId"])] },
      sent := none }
  else
    let receiverId := req.receiverId.getD ""
    let senderId := req.senderId.getD ""
    let senderName := req.senderName.getD ""
    let message := req.message.getD ""
    let chatId := req.chatId.getD ""
    if !firebaseEnabled then
      { resp := { status := 200,
                  body := [("success", .jbool true),
                           ("message", .jstr "Notification logged (Firebase disabled)"),
                           ("data", .jobjS [("receiverId", receiverId),
                                            ("senderName", senderName),
                                            ("messagePreview", jsSubstring message 50
                                              ++ (if message.length > 50 then "..." else "")),
                                            ("chatId", chatId)]),
                           ("firebase", .jbool false)] },
        sent := none }
    else
      match Store.get store receiverId with
      | none =>
          { resp := { status := 404,
                      body := [("error", .jstr "Receiver not found"),
                               ("receiverId", .jstr receiverId)] },
            sent := none }
      | some userData =>
          let fcmToken := userData.getStr "fcmToken"
          if !truthy fcmToken then
            { resp := { status := 400,
                        body := [("error", .jstr "No FCM token found for receiver"),
                                 ("receiverId", .jstr receiverId)] },
              sent := none }
          else
            let isOnline := (userData.getBool "isOnline").getD false
            if isOnline && (userData.getStr "activeChatId" == some chatId) then
              { resp := { status := 200,
                          body := [("success", .jbool true),
                                   ("message", .jstr "User is viewing this chat, notification skipped"),
                                   ("skipped", .jbool true),
                                   ("receiverId", .jstr receiverId)] },
                sent := none }
            else
              let notificationBody := getNotificationBody message messageType
              let fcmMessage : FcmMessage :=
                { title := senderName, body := notificationBody, chatId := chatId,
                  senderId := senderId, senderName := senderName,
                  messageType := messageType, token := fcmToken.getD "" }
              match outcome with
              | .ok messageId =>
                  { resp := { status := 200,
                              body := [("success", .jbool true),
                                       ("messageId", .jstr messageId),
                                       ("receiverId", .jstr receiverId),
                                       ("senderName", .jstr senderName),
                                       ("notificationBody", .jstr notificationBody),
                                       ("firebase", .jbool true)] },
                    sent := some fcmMessage }
              | .fail code msg =>
                  if code == some "messaging/registration-token-not-registered" then
                    { resp := { status := 400,
                                body := [("error", .jstr "Invalid or expired FCM token"),
                                         ("code", .jstr "TOKEN_INVALID"),
                                         ("receiverId", .jstr receiverId)] },
                      sent := some fcmMessage }
                  else
                    { resp := { status := 500,
                                body := [("error", .jstr "Failed to send notification"),
                                         ("details", .jstr msg),
                                         ("code", .jstr (jsOr code "UNKNOWN_ERROR"))] },
                      sent := some fcmMessage }

/-- POST /user/:userId/fcm-token handler of `src/unnamed/part_000`.  Fields
that are `undefined` in the source object (the `deviceType` echoes) are
dropped from the JSON response, as `JSON.stringify` does. -/
def handleFcmTokenUpdate (firebaseEnabled : Bool) (store : Store) (now : Nat)
    (userId : String) (fcmToken : Option String) (deviceType : Option String) : TokenResult :=
  if !truthy fcmToken then
    { resp := { status := 400,
                body := [("error", .jstr "fcmToken is required"),
                         ("received", .jobjS ([("userId", userId)]
                           ++ match deviceType with
                              | some d => [("deviceType", d)]
                              | none => []))] },
      store := store, wrote := false }
  else if !firebaseEnabled then
    { resp := { status := 200,
                body := [("success", .jbool true),
                         ("message", .jstr "FCM token received (Firebase disabled)"),
                         ("userId", .jstr userId),
                         ("firebase", .jbool false)] },
      store := store, wrote := false }
  else
    let newStore := Store.setMerge store userId
      [("fcmToken", .fstr (fcmToken.getD "")),
       ("deviceType", .fstr (jsOr deviceType "unknown")),
       ("lastTokenUpdate", .ftime now),
       ("isOnline", .fbool true),
       ("lastActive", .ftime now)]
    { resp := { status := 200,
                body := ([("success", .jbool true),
                          ("message", .jstr "FCM token updated successfully"),
                          ("userId", .jstr userId)]
                         ++ (match deviceType with
                             | some d => [("deviceType", JVal.jstr d)]
                             | none => [])
                         ++ [("firebase", .jbool true)]) },
      store := newStore, wrote := true }

/-- GET / response of `src/unnamed/part_000`. -/
def rootResponse (firebaseEnabled : Bool) (nowIso : String) : Response :=
  { status := 200,
    body := [("message", .jstr "Chat Notification API"),
             ("version", .jstr "1.0.0"),
             ("status", .jstr "running"),
             ("firebase", .jstr (if firebaseEnabled then "enabled" else "disabled")),
             ("endpoints", .jobjS [("health", "/health"),
                                   ("sendNotification", "POST /send-notification"),
                                   ("updateToken", "POST /user/:userId/fcm-token")]),
             ("timestamp", .jstr nowIso)] }

/-- GET /health response of `src/unnamed/part_000`. -/
def healthResponse (firebaseEnabled : Bool) (nowIso : String) : Response :=
  { status := 200,
    body := [("status", .jstr "OK"),
             ("message", .jstr "Chat Notification API is running"),
             ("firebase", .jstr (if firebaseEnabled then "enabled" else "disabled")),
             ("timestamp", .jstr nowIso)] }

/-- Routes defined by `src/unnamed/part_000`: GET /, GET /health,
POST /send-notification, POST /user/:userId/fcm-token. -/
def isKnownRoute (m : Method) (p : String) : Bool :=
  (m == .GET && p == "/")
    || (m == .GET && p == "/health")
    || (m == .POST && p == "/send-notification")
    || (m == .POST && (matchTokenPath p).isSome)

/-- Router of `src/unnamed/part_000`: the four routes above, then the
catch-all 404 handler listing the available endpoints. -/
def dispatch (firebaseEnabled : Bool) (store : Store) (outcome : SendOutcome)
    (now : Nat) (nowIso : String) (m : Method) (p : String) (body : ReqBody) : DispatchResult :=
  if m == .GET && p == "/" then
    { resp := rootResponse firebaseEnabled nowIso, sent := none, store := store }
  else if m == .GET && p == "/health" then
    { resp := healthResponse firebaseEnabled nowIso, sent := none, store := store }
  else if m == .POST && p == "/send-notification" then
    let r := handleSendNotification firebaseEnabled store outcome body.toSendReq
    { resp := r.resp, sent := r.sent, store := store }
  else
    match (if m == .POST then matchTokenPath p else none) with
    | some uid =>
        let r := handleFcmTokenUpdate firebaseEnabled store now uid body.fcmToken body.deviceType
        { resp := r.resp, sent := none, store := r.store }
    | none =>
        { resp := { status := 404,
                    body := [("error", .jstr "Endpoint not found"),
                             ("path", .jstr p),
                             ("method", .jstr m.name),
                             ("availableEndpoints",
                              .jobjS [("GET /", "API information"),
                                      ("GET /health", "Health check"),
                                      ("POST /send-notification", "Send push notification"),
                                      ("POST /user/:userId/fcm-token", "Update FCM token")])] },
          sent := none, store := store }

end V2

/-! Helper lemmas about the string model. -/

/-- Appending strings concatenates their character data. -/
theorem data_append (a b : String) : (a ++ b).data = a.data ++ b.data := by
  cases a; cases b; rfl

/-- A string built from a character list has that list's length. -/
theorem length_mk (l : List Char) : (String.mk l).length = l.length := rfl

/-- A string of positive length is not the empty string. -/
theorem ne_empty_of_length_pos {m : String} (h : 0 < m.length) : m ≠ "" := by
  intro h0
  rw [h0] at h
  exact absurd h (by decide)

/-- C4 (amended): the part_000 formatter `V2.getNotificationBody` equals the
reference definition `formatSpec` on all inputs; the server.js formatter
`V1.getNotificationBody` equals it on every input whose message is non-empty
(on an empty message it returns the message itself, not "New message"). -/
theorem c4_formatter_vs_reference (m t : String) :
    V2.getNotificationBody m t = formatSpec m t ∧
    (m ≠ "" → V1.getNotificationBody m t = formatSpec m t) := by
  unfold V2.getNotificationBody V1.getNotificationBody formatSpec
  constructor
  · split_ifs <;> simp_all
  · intro hm
    split_ifs <;> simp_all

/-- C4 witness: the amended theorem applied at a concrete non-empty message. -/
theorem c4_formatter_vs_reference_witness :
    V2.getNotificationBody "hello" "image" = formatSpec "hello" "image" ∧
    V1.getNotificationBody "hello" "image" = formatSpec "hello" "image" := by
  have h := c4_formatter_vs_reference "hello" "image"
  exact ⟨h.1, h.2 (by decide)⟩

/-- C4 counterexample: on an empty message of the default type, the server.js
formatter returns the empty message itself, not the generic "New message"
required by the claim (which the reference definition produces). -/
theorem c4_counterexample :
    V1.getNotificationBody "" "text" ≠ "New message" ∧
    V1.getNotificationBody "" "text" = "" ∧
    formatSpec "" "text" = "New message" := by
  refine ⟨by decide, rfl, rfl⟩

/-- C5 (amended): for messageType "text" and any message longer than 100
characters, both formatters return the first 100 characters of the message
followed by the 3-character ellipsis marker "...": the output has length
exactly 103 and the output with the marker removed (its first 100 characters)
is a prefix of the original message.  The full 103-character output itself is
not in general a prefix of the original (see the counterexample). -/
theorem c5_truncation_law (m : String) (h : 100 < m.length) :
    V2.getNotificationBody m "text" = jsSubstring m 100 ++ "..." ∧
    V1.getNotificationBody m "text" = jsSubstring m 100 ++ "..." ∧
    (jsSubstring m 100 ++ "...").length = 103 ∧
    (jsSubstring m 100).data <+: m.data := by
  have hm : m ≠ "" := ne_empty_of_length_pos (by omega)
  refine ⟨?_, ?_, ?_, ?_⟩
  · unfold V2.getNotificationBody
    split_ifs <;> simp_all
  · unfold V1.getNotificationBody
    split_ifs <;> simp_all
  · show (jsSubstring m 100 ++ "...").data.length = 103
    rw [data_append]
    simp [jsSubstring]
    have hlen : m.data.length = m.length := rfl
    omega
  · exact List.take_prefix 100 m.data

/-- C5 witness: the amended theorem applied to a concrete 101-character
message. -/
theorem c5_truncation_law_witness :
    V2.getNotificationBody (String.mk (List.replicate 101 'a')) "text"
      = jsSubstring (String.mk (List.replicate 101 'a')) 100 ++ "..." ∧
    V1.getNotificationBody (String.mk (List.replicate 101 'a')) "text"
      = jsSubstring (String.mk (List.replicate 101 'a')) 100 ++ "..." ∧
    (jsSubstring (String.mk (List.replicate 101 'a')) 100 ++ "...").length = 103 ∧
    (jsSubstring (String.mk (List.replicate 101 'a')) 100).data
      <+: (String.mk (List.replicate 101 'a')).data :=
  c5_truncation_law (String.mk (List.replicate 101 'a')) (by decide)

/-- C5 counterexample: for the 101-character message "aa...a", the formatter's
full output (100 characters plus the "..." marker) is not a prefix of the
original message, contrary to the claim as stated. -/
theorem c5_counterexample :
    ¬ ((V2.getNotificationBody (String.mk (List.replicate 101 'a')) "text").data
        <+: (String.mk (List.replicate 101 'a')).data) := by
  intro h
  have hb := List.isPrefixOf_iff_prefix.mpr h
  exact absurd hb (by decide)

/-- C1: for a send-notification request that passes validation, whose receiver
profile is found and has a push token, in both variants: the push sender is
not invoked exactly when the profile is online and its activeChatId equals the
request's chatId (an absent or non-string activeChatId matches no chatId), and
under that condition the response is a 200 success carrying skipped: true. -/
theorem c1_presence_gate (store : Store) (outcome : SendOutcome) (req : SendReq) (doc : Doc)
    (h1 : truthy req.receiverId = true) (h2 : truthy req.senderId = true)
    (h3 : truthy req.senderName = true) (h4 : truthy req.message = true)
    (h5 : truthy req.chatId = true)
    (hdoc : Store.get store (req.receiverId.getD "") = some doc)
    (htok : truthy (doc.getStr "fcmToken") = true) :
    (((V2.handleSendNotification true store outcome req).sent = none
        ↔ ((doc.getBool "isOnline").getD false = true
            ∧ doc.getStr "activeChatId" = some (req.chatId.getD ""))) ∧
      (((doc.getBool "isOnline").getD false = true
          ∧ doc.getStr "activeChatId" = some (req.chatId.getD "")) →
        (V2.handleSendNotification true store outcome req).resp.status = 200
          ∧ ("success", JVal.jbool true) ∈ (V2.handleSendNotification true store outcome req).resp.body
          ∧ ("skipped", JVal.jbool true) ∈ (V2.handleSendNotification true store outcome req).resp.body))
    ∧
    (((V1.handleSendNotification true store outcome req).sent = none
        ↔ ((doc.getBool "isOnline").getD false = true
            ∧ doc.getStr "activeChatId" = some (req.chatId.getD ""))) ∧
      (((doc.getBool "isOnline").getD false = true
          ∧ doc.getStr "activeChatId" = some (req.chatId.getD "")) →
        (V1.handleSendNotification true store outcome req).resp.status = 200
          ∧ ("success", JVal.jbool true) ∈ (V1.handleSendNotification true store outcome req).resp.body
          ∧ ("skipped", JVal.jbool true) ∈ (V1.handleSendNotification true store outcome req).resp.body)) := by
  unfold V2.handleSendNotification V1.handleSendNotification
  simp only [h1, h2, h3, h4, h5, Bool.not_true, Bool.or_self, Bool.false_or,
    Bool.not_false, Bool.not_true, if_false, if_true, hdoc]
  by_cases hcond : (doc.getBool "isOnline").getD false = true
      ∧ doc.getStr "activeChatId" = some (req.chatId.getD "")
  · simp only [htok, Bool.not_true, if_false, hcond.1, hcond.2, beq_self_eq_true,
      Bool.and_self, if_true]
    simp [hcond]
  · have hbool : ((doc.getBool "isOnline").getD false
        && (doc.getStr "activeChatId" == some (req.chatId.getD ""))) = false := by
      by_cases hb : (doc.getBool "isOnline").getD false = true
      · have : ¬ doc.getStr "activeChatId" = some (req.chatId.getD "") := by
          intro hc
          exact hcond ⟨hb, hc⟩
        simp [hb, this]
      · simp [Bool.eq_false_iff.mpr hb]
    simp only [htok, Bool.not_true, if_false, hbool]
    cases outcome with
    | ok messageId => simp [hcond]
    | fail code msg =>
        by_cases hc : code == some "messaging/registration-token-not-registered"
        · simp [hc, hcond]
        · simp [hc, hcond]

/-- C1 witness: a concrete request whose receiver is online in the request's
chat; the sender is not invoked. -/
theorem c1_presence_gate_witness :
    (V2.handleSendNotification true
      [("u1", [("fcmToken", FVal.fstr "tok"), ("isOnline", FVal.fbool true),
               ("activeChatId", FVal.fstr "c1")])]
      (SendOutcome.ok "mid")
      { receiverId := some "u1", senderId := some "s1", senderName := some "Sam",
        message := some "hi", chatId := some "c1", messageType := none }).sent = none := by
  have h := c1_presence_gate
    [("u1", [("fcmToken", FVal.fstr "tok"), ("isOnline", FVal.fbool true),
             ("activeChatId", FVal.fstr "c1")])]
    (SendOutcome.ok "mid")
    { receiverId := some "u1", senderId := some "s1", senderName := some "Sam",
      message := some "hi", chatId := some "c1", messageType := none }
    [("fcmToken", FVal.fstr "tok"), ("isOnline", FVal.fbool true),
     ("activeChatId", FVal.fstr "c1")]
    (by decide) (by decide) (by decide) (by decide) (by decide) (by decide) (by decide)
  exact h.1.1.mpr (by decide)

/-- C2: with the integration unconfigured, any request passing validation gets
a 200 success carrying the explicit firebase: false flag, in both variants and
on both POST endpoints; no sender call and no store write occurs. -/
theorem c2_degraded_mode (store : Store) (outcome : SendOutcome) (req : SendReq)
    (now : Nat) (userId : String) (fcmToken deviceType : Option String)
    (h1 : truthy req.receiverId = true) (h2 : truthy req.senderId = true)
    (h3 : truthy req.senderName = true) (h4 : truthy req.message = true)
    (h5 : truthy req.chatId = true) (h6 : truthy fcmToken = true) :
    ((V2.handleSendNotification false store outcome req).resp.status = 200
      ∧ ("success", JVal.jbool true) ∈ (V2.handleSendNotification false store outcome req).resp.body
      ∧ ("firebase", JVal.jbool false) ∈ (V2.handleSendNotification false store outcome req).resp.body
      ∧ (V2.handleSendNotification false store outcome req).sent = none)
    ∧ ((V1.handleSendNotification false store outcome req).resp.status = 200
      ∧ ("success", JVal.jbool true) ∈ (V1.handleSendNotification false store outcome req).resp.body
      ∧ ("firebase", JVal.jbool false) ∈ (V1.handleSendNotification false store outcome req).resp.body
      ∧ (V1.handleSendNotification false store outcome req).sent = none)
    ∧ ((V2.handleFcmTokenUpdate false store now userId fcmToken deviceType).resp.status = 200
      ∧ ("success", JVal.jbool true) ∈ (V2.handleFcmTokenUpdate false store now userId fcmToken deviceType).resp.body
      ∧ ("firebase", JVal.jbool false) ∈ (V2.handleFcmTokenUpdate false store now userId fcmToken deviceType).resp.body
      ∧ (V2.handleFcmTokenUpdate false store now userId fcmToken deviceType).store = store
      ∧ (V2.handleFcmTokenUpdate false store now userId fcmToken deviceType).wrote = false)
    ∧ ((V1.handleFcmTokenUpdate false store now userId fcmToken deviceType).resp.status = 200
      ∧ ("success", JVal.jbool true) ∈ (V1.handleFcmTokenUpdate false store now userId fcmToken deviceType).resp.body
      ∧ ("firebase", JVal.jbool false) ∈ (V1.handleFcmTokenUpdate false store now userId fcmToken deviceType).resp.body
      ∧ (V1.handleFcmTokenUpdate false store now userId fcmToken deviceType).store = store
      ∧ (V1.handleFcmTokenUpdate false store now userId fcmToken deviceType).wrote = false) := by
  unfold V2.handleSendNotification V1.handleSendNotification
    V2.handleFcmTokenUpdate V1.handleFcmTokenUpdate
  simp [h1, h2, h3, h4, h5, h6]

/-- C2 witness: the theorem applied at a concrete well-formed request in
degraded mode. -/
theorem c2_degraded_mode_witness :
    (V2.handleSendNotification false [] (SendOutcome.ok "mid")
      { receiverId := some "u1", senderId := some "s1", senderName := some "Sam",
        message := some "hi", chatId := some "c1", messageType := none }).resp.status = 200
    ∧ (V1.handleFcmTokenUpdate false [] 7 "u1" (some "tok") none).store = [] := by
  have h := c2_degraded_mode [] (SendOutcome.ok "mid")
    { receiverId := some "u1", senderId := some "s1", senderName := some "Sam",
      message := some "hi", chatId := some "c1", messageType := none }
    7 "u1" (some "tok") none
    (by decide) (by decide) (by decide) (by decide) (by decide) (by decide)
  exact ⟨h.1.1, h.2.2.2.2.2.2.1⟩

/-- C3 (amended): a send-notification request with any required field missing
or empty gets a 400 in both variants, whose body lists the full fixed set of
required fields regardless of which ones are missing: part_000 as the array
required = [receiverId, senderId, senderName, message, chatId], server.js as
one fixed message string naming all five. -/
theorem c3_missing_fields (fb : Bool) (store : Store) (outcome : SendOutcome) (req : SendReq)
    (h : truthy req.receiverId = false ∨ truthy req.senderId = false
        ∨ truthy req.senderName = false ∨ truthy req.message = false
        ∨ truthy req.chatId = false) :
    (V2.handleSendNotification fb store outcome req).resp.status = 400
    ∧ Body.getVal (V2.handleSendNotification fb store outcome req).resp.body "required"
        = some (JVal.jarr ["receiverId", "senderId", "senderName", "message", "chatId"])
    ∧ (V1.handleSendNotification fb store outcome req).resp.status = 400
    ∧ (V1.handleSendNotification fb store outcome req).resp.body
        = [("error", JVal.jstr "Missing required fields: receiverId, senderId, senderName, message, chatId")] := by
  unfold V2.handleSendNotification V1.handleSendNotification
  rcases h with h | h | h | h | h <;>
    simp [h, Body.getVal]

/-- C3 witness: the amended theorem applied to a request missing receiverId. -/
theorem c3_missing_fields_witness :
    (V2.handleSendNotification true [] (SendOutcome.ok "mid")
      { receiverId := none, senderId := some "s1", senderName := some "Sam",
        message := some "hi", chatId := some "c1", messageType := none }).resp.status = 400 :=
  (c3_missing_fields true [] (SendOutcome.ok "mid")
    { receiverId := none, senderId := some "s1", senderName := some "Sam",
      message := some "hi", chatId := some "c1", messageType := none }
    (Or.inl (by decide))).1

/-- C3 counterexample: for a request whose only missing field is receiverId,
the part_000 body's required array is the full five-field list, not the
one-element list of missing fields the claim requires. -/
theorem c3_counterexample :
    Body.getVal (V2.handleSendNotification true [] (SendOutcome.ok "mid")
      { receiverId := none, senderId := some "s1", senderName := some "Sam",
        message := some "hi", chatId := some "c1", messageType := none }).resp.body "required"
      = some (JVal.jarr ["receiverId", "senderId", "senderName", "message", "chatId"])
    ∧ JVal.jarr ["receiverId", "senderId", "senderName", "message", "chatId"]
      ≠ JVal.jarr ["receiverId"] := by
  exact ⟨by decide, by decide⟩

/-- C10: required-field validation runs before the degraded-mode branch in all
four POST handlers: a request with a missing required field gets the same 400
validation response whether or not the integration is configured. -/
theorem c10_validation_before_degraded (store : Store) (outcome : SendOutcome) (req : SendReq)
    (now : Nat) (userId : String) (fcmToken deviceType : Option String)
    (h : truthy req.receiverId = false ∨ truthy req.senderId = false
        ∨ truthy req.senderName = false ∨ truthy req.message = false
        ∨ truthy req.chatId = false)
    (htok : truthy fcmToken = false) :
    (∀ fb : Bool,
      (V2.handleSendNotification fb store outcome req).resp.status = 400
      ∧ V2.handleSendNotification fb store outcome req
          = V2.handleSendNotification true store outcome req
      ∧ (V1.handleSendNotification fb store outcome req).resp.status = 400
      ∧ V1.handleSendNotification fb store outcome req
          = V1.handleSendNotification true store outcome req)
    ∧ (∀ fb : Bool,
      (V2.handleFcmTokenUpdate fb store now userId fcmToken deviceType).resp.status = 400
      ∧ V2.handleFcmTokenUpdate fb store now userId fcmToken deviceType
          = V2.handleFcmTokenUpdate true store now userId fcmToken deviceType
      ∧ (V1.handleFcmTokenUpdate fb store now userId fcmToken deviceType).resp.status = 400
      ∧ V1.handleFcmTokenUpdate fb store now userId fcmToken deviceType
          = V1.handleFcmTokenUpdate true store now userId fcmToken deviceType) := by
  constructor
  · intro fb
    unfold V2.handleSendNotification V1.handleSendNotification
    rcases h with h | h | h | h | h <;> simp [h]
  · intro fb
    unfold V2.handleFcmTokenUpdate V1.handleFcmTokenUpdate
    simp [htok]

/-- C10 witness: the theorem applied in degraded mode to a request missing
its message and to a token update missing its token. -/
theorem c10_validation_before_degraded_witness :
    (V2.handleSendNotification false [] (SendOutcome.ok "mid")
      { receiverId := some "u1", senderId := some "s1", senderName := some "Sam",
        message := none, chatId := some "c1", messageType := none }).resp.status = 400
    ∧ (V1.handleFcmTokenUpdate false [] 7 "u1" none (some "android")).resp.status = 400 := by
  have h := c10_validation_before_degraded [] (SendOutcome.ok "mid")
    { receiverId := some "u1", senderId := some "s1", senderName := some "Sam",
      message := none, chatId := some "c1", messageType := none }
    7 "u1" none (some "android")
    (Or.inr (Or.inr (Or.inr (Or.inl (by decide))))) (by decide)
  exact ⟨(h.1 false).1, (h.2 false).2.2.1⟩

/-- C8 (amended): a validated send-notification request whose receiverId has
no profile record gets a 404 with no sender call in both variants; the
part_000 body carries the receiver id under the key receiverId, while the
server.js body is the bare fixed string "Receiver not found" without the id. -/
theorem c8_receiver_not_found (store : Store) (outcome : SendOutcome) (req : SendReq)
    (h1 : truthy req.receiverId = true) (h2 : truthy req.senderId = true)
    (h3 : truthy req.senderName = true) (h4 : truthy req.message = true)
    (h5 : truthy req.chatId = true)
    (hnone : Store.get store (req.receiverId.getD "") = none) :
    (V2.handleSendNotification true store outcome req).resp.status = 404
    ∧ Body.getVal (V2.handleSendNotification true store outcome req).resp.body "receiverId"
        = some (JVal.jstr (req.receiverId.getD ""))
    ∧ (V2.handleSendNotification true store outcome req).sent = none
    ∧ (V1.handleSendNotification true store outcome req).resp.status = 404
    ∧ (V1.handleSendNotification true store outcome req).resp.body
        = [("error", JVal.jstr "Receiver not found")]
    ∧ (V1.handleSendNotification true store outcome req).sent = none := by
  unfold V2.handleSendNotification V1.handleSendNotification
  simp [h1, h2, h3, h4, h5, hnone, Body.getVal]

/-- C8 witness: the amended theorem applied to a receiver missing from a
concrete store. -/
theorem c8_receiver_not_found_witness :
    (V2.handleSendNotification true [("other", [])] (SendOutcome.ok "mid")
      { receiverId := some "ghost", senderId := some "s1", senderName := some "Sam",
        message := some "hi", chatId := some "c1", messageType := none }).resp.status = 404 :=
  (c8_receiver_not_found [("other", [])] (SendOutcome.ok "mid")
    { receiverId := some "ghost", senderId := some "s1", senderName := some "Sam",
      message := some "hi", chatId := some "c1", messageType := none }
    (by decide) (by decide) (by decide) (by decide) (by decide) (by decide)).1

/-- C8 counterexample: in the server.js variant, the 404 body for the unknown
receiver "ghost" is the fixed error string alone; it does not carry the
receiver id (there is no receiverId field), contrary to the claim. -/
theorem c8_counterexample :
    (V1.handleSendNotification true [] (SendOutcome.ok "mid")
      { receiverId := some "ghost", senderId := some "s1", senderName := some "Sam",
        message := some "hi", chatId := some "c1", messageType := none }).resp.status = 404
    ∧ (V1.handleSendNotification true [] (SendOutcome.ok "mid")
      { receiverId := some "ghost", senderId := some "s1", senderName := some "Sam",
        message := some "hi", chatId := some "c1", messageType := none }).resp.body
      = [("error", JVal.jstr "Receiver not found")]
    ∧ Body.getVal (V1.handleSendNotification true [] (SendOutcome.ok "mid")
      { receiverId := some "ghost", senderId := some "s1", senderName := some "Sam",
        message := some "hi", chatId := some "c1", messageType := none }).resp.body "receiverId"
      = none := by
  exact ⟨by decide, by decide, by decide⟩

/-- C6 (amended): when the push sender call fails on a request that reached
it: a failure with code messaging/registration-token-not-registered yields a
400 carrying the machine code TOKEN_INVALID in both variants; any other
failure yields a 500 whose body carries the failure detail in both variants,
and its kind (the sender error code, taken through the JS || default so that
an absent or empty code is reported as UNKNOWN_ERROR) in part_000 only — the
server.js 500 body holds the fixed error string and the detail alone, with no
code field. -/
theorem c6_sender_failure (store : Store) (req : SendReq) (doc : Doc)
    (code : Option String) (msg : String)
    (h1 : truthy req.receiverId = true) (h2 : truthy req.senderId = true)
    (h3 : truthy req.senderName = true) (h4 : truthy req.message = true)
    (h5 : truthy req.chatId = true)
    (hdoc : Store.get store (req.receiverId.getD "") = some doc)
    (htok : truthy (doc.getStr "fcmToken") = true)
    (hns : ((doc.getBool "isOnline").getD false
        && (doc.getStr "activeChatId" == some (req.chatId.getD ""))) = false) :
    (code = some "messaging/registration-token-not-registered" →
      (V2.handleSendNotification true store (SendOutcome.fail code msg) req).resp.status = 400
      ∧ Body.getVal (V2.handleSendNotification true store (SendOutcome.fail code msg) req).resp.body "code"
          = some (JVal.jstr "TOKEN_INVALID")
      ∧ (V1.handleSendNotification true store (SendOutcome.fail code msg) req).resp.status = 400
      ∧ Body.getVal (V1.handleSendNotification true store (SendOutcome.fail code msg) req).resp.body "code"
          = some (JVal.jstr "TOKEN_INVALID"))
    ∧ (code ≠ some "messaging/registration-token-not-registered" →
      (V2.handleSendNotification true store (SendOutcome.fail code msg) req).resp.status = 500
      ∧ Body.getVal (V2.handleSendNotification true store (SendOutcome.fail code msg) req).resp.body "details"
          = some (JVal.jstr msg)
      ∧ Body.getVal (V2.handleSendNotification true store (SendOutcome.fail code msg) req).resp.body "code"
          = some (JVal.jstr (jsOr code "UNKNOWN_ERROR"))
      ∧ (V1.handleSendNotification true store (SendOutcome.fail code msg) req).resp.status = 500
      ∧ (V1.handleSendNotification true store (SendOutcome.fail code msg) req).resp.body
          = [("error", JVal.jstr "Failed to send notification"), ("details", JVal.jstr msg)]) := by
  unfold V2.handleSendNotification V1.handleSendNotification
  constructor
  · intro hc
    simp [h1, h2, h3, h4, h5, hdoc, htok, hns, hc, Body.getVal]
  · intro hc
    have hb : (code == some "messaging/registration-token-not-registered") = false := by
      simp [hc]
    simp [h1, h2, h3, h4, h5, hdoc, htok, hns, hb, Body.getVal]

/-- C6 witness: the theorem applied to a concrete invalid-token failure and
checked on its TOKEN_INVALID conclusion. -/
theorem c6_sender_failure_witness :
    (V2.handleSendNotification true [("u1", [("fcmToken", FVal.fstr "tok")])]
      (SendOutcome.fail (some "messaging/registration-token-not-registered") "gone")
      { receiverId := some "u1", senderId := some "s1", senderName := some "Sam",
        message := some "hi", chatId := some "c1", messageType := none }).resp.status = 400 := by
  have h := c6_sender_failure [("u1", [("fcmToken", FVal.fstr "tok")])]
    { receiverId := some "u1", senderId := some "s1", senderName := some "Sam",
      message := some "hi", chatId := some "c1", messageType := none }
    [("fcmToken", FVal.fstr "tok")]
    (some "messaging/registration-token-not-registered") "gone"
    (by decide) (by decide) (by decide) (by decide) (by decide) (by decide) (by decide) (by decide)
  exact (h.1 rfl).1

/-- C6 counterexample: for a sender failure of kind app/unavailable with
detail "boom", the server.js 500 body carries the detail but not the failure
kind: the body is exactly the fixed error string plus details, and it has no
code field, contrary to the claim's requirement that the response include the
failure's kind. -/
theorem c6_counterexample :
    (V1.handleSendNotification true [("u1", [("fcmToken", FVal.fstr "tok")])]
      (SendOutcome.fail (some "app/unavailable") "boom")
      { receiverId := some "u1", senderId := some "s1", senderName := some "Sam",
        message := some "hi", chatId := some "c1", messageType := none }).resp.status = 500
    ∧ (V1.handleSendNotification true [("u1", [("fcmToken", FVal.fstr "tok")])]
      (SendOutcome.fail (some "app/unavailable") "boom")
      { receiverId := some "u1", senderId := some "s1", senderName := some "Sam",
        message := some "hi", chatId := some "c1", messageType := none }).resp.body
      = [("error", JVal.jstr "Failed to send notification"), ("details", JVal.jstr "boom")]
    ∧ Body.getVal (V1.handleSendNotification true [("u1", [("fcmToken", FVal.fstr "tok")])]
      (SendOutcome.fail (some "app/unavailable") "boom")
      { receiverId := some "u1", senderId := some "s1", senderName := some "Sam",
        message := some "hi", chatId := some "c1", messageType := none }).resp.body "code"
      = none := by
  exact ⟨by decide, by decide, by decide⟩

/-- C9 (amended): a request matching none of the four routes of the spec's
table gets a 404 in both variants with no sender call and no store change;
the part_000 body carries the machine-readable availableEndpoints map of the
four valid endpoints, while the server.js body is the bare fixed string
"Endpoint not found" with no endpoint list. -/
theorem c9_unmatched_route (fb : Bool) (store : Store) (outcome : SendOutcome)
    (now : Nat) (nowIso : String) (m : Method) (p : String) (body : ReqBody)
    (hv2 : V2.isKnownRoute m p = false) :
    ((V2.dispatch fb store outcome now nowIso m p body).resp.status = 404
      ∧ Body.getVal (V2.dispatch fb store outcome now nowIso m p body).resp.body "availableEndpoints"
          = some (JVal.jobjS [("GET /", "API information"),
                              ("GET /health", "Health check"),
                              ("POST /send-notification", "Send push notification"),
                              ("POST /user/:userId/fcm-token", "Update FCM token")])
      ∧ (V2.dispatch fb store outcome now nowIso m p body).sent = none
      ∧ (V2.dispatch fb store outcome now nowIso m p body).store = store)
    ∧ ((V1.dispatch fb store outcome now nowIso m p body).resp.status = 404
      ∧ (V1.dispatch fb store outcome now nowIso m p body).resp.body
          = [("error", JVal.jstr "Endpoint not found")]
      ∧ (V1.dispatch fb store outcome now nowIso m p body).sent = none
      ∧ (V1.dispatch fb store outcome now nowIso m p body).store = store) := by
  have hv2' := hv2
  simp only [V2.isKnownRoute, Bool.or_eq_false_iff] at hv2'
  obtain ⟨⟨⟨ha, hb⟩, hc⟩, hd⟩ := hv2'
  have htok : (if m = Method.POST then matchTokenPath p else none) = none := by
    cases m with
    | GET => rfl
    | POST =>
        cases hmt : matchTokenPath p with
        | none => rfl
        | some u =>
            exfalso
            have hknown : V2.isKnownRoute Method.POST p = true := by
              rw [V2.isKnownRoute, hmt]
              simp
            have hcontra := hknown.symm.trans hv2
            simp at hcontra
  unfold V2.dispatch V1.dispatch
  simp [ha, hb, hc, htok, Body.getVal]

/-- C9 witness: the theorem applied to the unmatched route POST /nope. -/
theorem c9_unmatched_route_witness :
    (V2.dispatch false [] (SendOutcome.ok "mid") 0 "t" Method.POST "/nope"
      { receiverId := none, senderId := none, senderName := none, message := none,
        chatId := none, messageType := none, fcmToken := none, deviceType := none }).resp.status = 404 :=
  (c9_unmatched_route false [] (SendOutcome.ok "mid") 0 "t" Method.POST "/nope"
    { receiverId := none, senderId := none, senderName := none, message := none,
      chatId := none, messageType := none, fcmToken := none, deviceType := none }
    (by decide)).1.1

/-- C9 counterexample: for the unmatched route POST /nope, the server.js 404
body is the bare error string and contains no availableEndpoints field, so it
includes no machine-readable list of the valid endpoints, contrary to the
claim. -/
theorem c9_counterexample :
    (V1.dispatch false [] (SendOutcome.ok "mid") 0 "t" Method.POST "/nope"
      { receiverId := none, senderId := none, senderName := none, message := none,
        chatId := none, messageType := none, fcmToken := none, deviceType := none }).resp.body
      = [("error", JVal.jstr "Endpoint not found")]
    ∧ Body.getVal (V1.dispatch false [] (SendOutcome.ok "mid") 0 "t" Method.POST "/nope"
      { receiverId := none, senderId := none, senderName := none, message := none,
        chatId := none, messageType := none, fcmToken := none, deviceType := none }).resp.body
      "availableEndpoints" = none := by
  exact ⟨by decide, by decide⟩

/-! Lemmas about the document / store model, used for the token-update claim. -/

/-- Reading back a freshly written field yields the written value. -/
theorem doc_get_setField_self (d : Doc) (k : String) (v : FVal) :
    (d.setField k v).get k = some v := by
  induction d with
  | nil => simp [Doc.setField, Doc.get]
  | cons kv rest ih =>
      obtain ⟨k1, w⟩ := kv
      by_cases h : k1 = k
      · simp [Doc.setField, h, Doc.get]
      · simp [Doc.setField, h, Doc.get, ih]

/-- Writing one field leaves every other field unchanged. -/
theorem doc_get_setField_ne (d : Doc) (k k' : String) (v : FVal) (h : k' ≠ k) :
    (d.setField k v).get k' = d.get k' := by
  induction d with
  | nil => simp [Doc.setField, Doc.get, Ne.symm h]
  | cons kv rest ih =>
      obtain ⟨k1, w⟩ := kv
      by_cases hk : k1 = k
      · subst hk
        simp [Doc.setField, Doc.get, Ne.symm h]
      · by_cases hk' : k1 = k'
        · simp [Doc.setField, hk, Doc.get, hk', h]
        · simp [Doc.setField, hk, Doc.get, hk', ih]

/-- Reading back a freshly set document yields that document. -/
theorem store_get_set_self (s : Store) (uid : String) (d : Doc) :
    (s.set uid d).get uid = some d := by
  induction s with
  | nil => simp [Store.set, Store.get]
  | cons kv rest ih =>
      obtain ⟨k1, e⟩ := kv
      by_cases h : k1 = uid
      · simp [Store.set, h, Store.get]
      · simp [Store.set, h, Store.get, ih]

/-- C7 (amended): a token update that passes validation performs, in both
variants, the same single merge write for the given user: afterwards that
user's record exists (it is created when the user was unknown) and holds
fcmToken equal to the supplied token overwritten wholesale, deviceType equal
to the supplied value except that an absent or empty value is stored as
"unknown", isOnline = true, and both timestamps refreshed to the current
server time, while every field outside these five keeps exactly the value it
had before the update (in particular activeChatId). -/
theorem c7_token_update_upsert (store : Store) (now : Nat) (userId : String)
    (fcmToken deviceType : Option String) (htok : truthy fcmToken = true) :
    (V1.handleFcmTokenUpdate true store now userId fcmToken deviceType).store
      = (V2.handleFcmTokenUpdate true store now userId fcmToken deviceType).store
    ∧ (V2.handleFcmTokenUpdate true store now userId fcmToken deviceType).wrote = true
    ∧ (Store.get (V2.handleFcmTokenUpdate true store now userId fcmToken deviceType).store userId).isSome = true
    ∧ Doc.get ((Store.get (V2.handleFcmTokenUpdate true store now userId fcmToken deviceType).store userId).getD [])
        "fcmToken" = some (FVal.fstr (fcmToken.getD ""))
    ∧ Doc.get ((Store.get (V2.handleFcmTokenUpdate true store now userId fcmToken deviceType).store userId).getD [])
        "deviceType" = some (FVal.fstr (jsOr deviceType "unknown"))
    ∧ Doc.get ((Store.get (V2.handleFcmTokenUpdate true store now userId fcmToken deviceType).store userId).getD [])
        "isOnline" = some (FVal.fbool true)
    ∧ Doc.get ((Store.get (V2.handleFcmTokenUpdate true store now userId fcmToken deviceType).store userId).getD [])
        "lastTokenUpdate" = some (FVal.ftime now)
    ∧ Doc.get ((Store.get (V2.handleFcmTokenUpdate true store now userId fcmToken deviceType).store userId).getD [])
        "lastActive" = some (FVal.ftime now)
    ∧ ∀ k : String, k ≠ "fcmToken" → k ≠ "deviceType" → k ≠ "lastTokenUpdate"
        → k ≠ "isOnline" → k ≠ "lastActive" →
        Doc.get ((Store.get (V2.handleFcmTokenUpdate true store now userId fcmToken deviceType).store userId).getD []) k
          = Doc.get ((Store.get store userId).getD []) k := by
  have hs2 : (V2.handleFcmTokenUpdate true store now userId fcmToken deviceType).store
      = Store.setMerge store userId
          [("fcmToken", FVal.fstr (fcmToken.getD "")),
           ("deviceType", FVal.fstr (jsOr deviceType "unknown")),
           ("lastTokenUpdate", FVal.ftime now),
           ("isOnline", FVal.fbool true),
           ("lastActive", FVal.ftime now)] := by
    unfold V2.handleFcmTokenUpdate
    simp [htok]
  have hs1 : (V1.handleFcmTokenUpdate true store now userId fcmToken deviceType).store
      = Store.setMerge store userId
          [("fcmToken", FVal.fstr (fcmToken.getD "")),
           ("deviceType", FVal.fstr (jsOr deviceType "unknown")),
           ("lastTokenUpdate", FVal.ftime now),
           ("isOnline", FVal.fbool true),
           ("lastActive", FVal.ftime now)] := by
    unfold V1.handleFcmTokenUpdate
    simp [htok]
  have hget : Store.get (V2.handleFcmTokenUpdate true store now userId fcmToken deviceType).store userId
      = some (Doc.setMerge ((Store.get store userId).getD [])
          [("fcmToken", FVal.fstr (fcmToken.getD "")),
           ("deviceType", FVal.fstr (jsOr deviceType "unknown")),
           ("lastTokenUpdate", FVal.ftime now),
           ("isOnline", FVal.fbool true),
           ("lastActive", FVal.ftime now)]) := by
    rw [hs2, Store.setMerge, store_get_set_self]
  have hwrote : (V2.handleFcmTokenUpdate true store now userId fcmToken deviceType).wrote = true := by
    unfold V2.handleFcmTokenUpdate
    simp [htok]
  refine ⟨hs1.trans hs2.symm, hwrote, ?_, ?_, ?_, ?_, ?_, ?_, ?_⟩
  · rw [hget]; rfl
  · rw [hget]
    simp [Doc.setMerge, doc_get_setField_self, doc_get_setField_ne]
  · rw [hget]
    simp [Doc.setMerge, doc_get_setField_self, doc_get_setField_ne]
  · rw [hget]
    simp [Doc.setMerge, doc_get_setField_self, doc_get_setField_ne]
  · rw [hget]
    simp [Doc.setMerge, doc_get_setField_self, doc_get_setField_ne]
  · rw [hget]
    simp [Doc.setMerge, doc_get_setField_self, doc_get_setField_ne]
  · intro k h1 h2 h3 h4 h5
    rw [hget]
    simp [Doc.setMerge, doc_get_setField_ne, h1, h2, h3, h4, h5]

/-- C7 witness: the amended theorem applied to a first update for an unknown
user, checked on its record-creation conclusion. -/
theorem c7_token_update_upsert_witness :
    (Store.get (V2.handleFcmTokenUpdate true [] 7 "u1" (some "tok123") none).store "u1").isSome = true :=
  (c7_token_update_upsert [] 7 "u1" (some "tok123") none (by decide)).2.2.1

/-- C7 counterexample: for a supplied deviceType that is the empty string, the
stored deviceType is "unknown", not the supplied value, contrary to the
claim's "the supplied value, defaulting to unknown when absent" (the code
also defaults on a present-but-empty value). -/
theorem c7_counterexample :
    Doc.get ((Store.get (V2.handleFcmTokenUpdate true [] 7 "u1" (some "tok123") (some "")).store "u1").getD [])
      "deviceType" = some (FVal.fstr "unknown")
    ∧ FVal.fstr "unknown" ≠ FVal.fstr "" := by
  exact ⟨by decide, by decide⟩

end ChatNotify
